import Mathlib

/-!
Verification development for the fastlabio FastAPI facade
(fastlabio/camera.py, fastlabio/motor.py, main.py).

The Python modules are shallowly embedded: each FastAPI endpoint becomes a
total Lean function from an environment describing the behaviour of the
external collaborators (the pysilico camera client, the plico_motor client,
the cv2 JPEG encoder, the WebSocket channel) to an HTTP response together
with a trace of instrument-lifecycle events.  Numeric request values are
modelled as a rational value paired with its Python string rendering, so
that message-echo properties can be stated exactly.
-/

namespace Fastlabio

/-- Opaque instrument session handles: the objects returned by
pysilico.camera / plico_motor.motor, identified by an id chosen by the
client library. -/
abbrev Handle := Nat

/-- JPEG byte buffers (cv2.imencode output, buffer.tobytes()). -/
abbrev Bytes := List Nat

/-- Opaque frame objects produced by the camera client. -/
abbrev Frame := Nat

/-- Opaque numpy arrays (frame_object.toNumpyArray()). -/
abbrev NDArray := Nat

/-- Python float values as they travel through a request: the numeric value
together with the string Python produces for it in an f-string. -/
structure PyNum where
  val : ℚ
  str : String
deriving DecidableEq

/-- JSON values that can appear in a request body field. -/
inductive JsonVal where
  | num (n : PyNum)
  | str (s : String)
  | null
deriving DecidableEq

/-- Python exceptions relevant to the embedded code.  HTTPException carries a
status code and a detail string; WebSocketDisconnect is the client-disconnect
signal; every other exception is represented by its message. -/
inductive Exc where
  | httpExc (code : Nat) (detail : String)
  | wsDisconnect
  | other (msg : String)
deriving DecidableEq

/-- Python str(e) for an exception, as used inside f-strings.  Starlette
renders HTTPException as "<code>: <detail>". -/
def strExc : Exc → String
  | Exc.httpExc c d => Nat.repr c ++ ": " ++ d
  | Exc.wsDisconnect => "WebSocketDisconnect"
  | Exc.other m => m

/-- Message of the AttributeError raised when an attribute is looked up on
Python None (the camera dependency can yield None, see get_pysilico_camera). -/
def noneAttrMsg (attr : String) : String :=
  "NoneType object has no attribute " ++ attr

/-- Outcome of one call into an external collaborator: a return value or a
raised exception. -/
inductive OpResult (α : Type) where
  | ok (a : α)
  | raises (e : Exc)
deriving DecidableEq

/-- Outcome of the blocking client constructor (pysilico.camera or
plico_motor.motor): a session object, Python None, or a raised exception. -/
inductive ConnectResult where
  | ok (h : Handle)
  | null
  | raises (e : Exc)
deriving DecidableEq

/-- Pydantic field-level validation error, reported in a 422 response. -/
structure ValErr where
  loc : String
  msg : String
deriving DecidableEq

/-- Response bodies produced by the facade. -/
inductive RespBody where
  | jpegBytes (b : Bytes)
  | message (s : String)
  | position (p : PyNum)
  | errorDetail (s : String)
  | validationDetail (e : ValErr)
deriving DecidableEq

/-- An HTTP response: status code, content type, body. -/
structure HttpResponse where
  statusCode : Nat
  contentType : String
  body : RespBody
deriving DecidableEq

/-- A 200 JSON response of the form a dict with a message key. -/
def jsonMessage (s : String) : HttpResponse :=
  { statusCode := 200, contentType := "application/json", body := RespBody.message s }

/-- A JSON error response carrying an HTTPException detail. -/
def jsonError (c : Nat) (d : String) : HttpResponse :=
  { statusCode := c, contentType := "application/json", body := RespBody.errorDetail d }

/-- The 422 response FastAPI produces for a pydantic validation failure. -/
def resp422 (ve : ValErr) : HttpResponse :=
  { statusCode := 422, contentType := "application/json", body := RespBody.validationDetail ve }

/-- Response for an HTTPException that escaped a dependency or handler. -/
def httpErrorResponse : Exc → HttpResponse
  | Exc.httpExc c d => jsonError c d
  | e => jsonError 500 (strExc e)

/-- Instrument lifecycle events recorded while serving one request or one
streaming connection. -/
inductive Event where
  | connectCamera
  | connectMotor
  | acquired (h : Option Handle)
  | instrCall (h : Option Handle) (nm : String) (arg : Option PyNum)
  | released (h : Option Handle)
deriving DecidableEq

/-! Configuration constants from camera.py and motor.py. -/

def CAMERA_HOST : String := "localhost"

def CAMERA_PORT : Nat := 7100

def MOTOR_HOST : String := "localhost"

def MOTOR_PORT : Nat := 7200

/-- Camera connection provider (camera.py get_pysilico_camera).  Calls
pysilico.camera; on an exception it raises an HTTPException wrapping the
cause; otherwise it yields exactly what the constructor returned - there is
no check against None, so a None handle is yielded to the endpoint. -/
def get_pysilico_camera (c : ConnectResult) : Except Exc (Option Handle) :=
  match c with
  | ConnectResult.ok h => Except.ok (some h)
  | ConnectResult.null => Except.ok none
  | ConnectResult.raises e =>
      Except.error (Exc.httpExc 500 ("Could not connect to camera: " ++ strExc e))

/-- Behaviour of one blocking plico_motor.motor call: how long it takes (in
seconds) and what it does when it completes. -/
structure MotorConnectAttempt where
  duration : ℚ
  result : ConnectResult
deriving DecidableEq

/-- Fixed timeout for the motor connection attempt (motor.py, 10 seconds). -/
def timeout_seconds : ℚ := 10

/-- Detail of the HTTPException raised on asyncio.TimeoutError in motor.py. -/
def motorTimeoutDetail : String :=
  "Timeout connecting to motor server on " ++ MOTOR_HOST ++ ":" ++ Nat.repr MOTOR_PORT ++
    ". Server might be unresponsive."

/-- Detail of the HTTPException raised when plico_motor.motor returns None. -/
def motorNullDetail : String :=
  "Failed to obtain motor client from server. Check server logs."

/-- Motor connection provider (motor.py get_plico_motor).  The blocking call
runs under asyncio.wait_for with timeout_seconds; a timeout raises an
HTTPException, a None result raises an HTTPException, and both - like any
other exception - are caught by the outer generic except clause and rewrapped
into the "Could not connect to motor" HTTPException. -/
def get_plico_motor (a : MotorConnectAttempt) : Except Exc Handle :=
  if timeout_seconds < a.duration then
    Except.error (Exc.httpExc 500
      ("Could not connect to motor: " ++ strExc (Exc.httpExc 500 motorTimeoutDetail)))
  else
    match a.result with
    | ConnectResult.ok h => Except.ok h
    | ConnectResult.null =>
        Except.error (Exc.httpExc 500
          ("Could not connect to motor: " ++ strExc (Exc.httpExc 500 motorNullDetail)))
    | ConnectResult.raises e =>
        Except.error (Exc.httpExc 500 ("Could not connect to motor: " ++ strExc e))

/-! Pydantic request models (camera.py, motor.py), embedded as the validation
they perform on the corresponding request-body field. -/

/-- ExposureSettings: exposure_time_us is a float constrained by gt 0. -/
def ExposureSettings (v : JsonVal) : Except ValErr PyNum :=
  match v with
  | JsonVal.num n =>
      if 0 < n.val then Except.ok n
      else Except.error { loc := "exposure_time_us", msg := "Input should be greater than 0" }
  | _ => Except.error { loc := "exposure_time_us", msg := "Input should be a valid number" }

/-- GainSettings: gain is a float constrained by ge 0. -/
def GainSettings (v : JsonVal) : Except ValErr PyNum :=
  match v with
  | JsonVal.num n =>
      if 0 ≤ n.val then Except.ok n
      else Except.error { loc := "gain", msg := "Input should be greater than or equal to 0" }
  | _ => Except.error { loc := "gain", msg := "Input should be a valid number" }

/-- MotorMoveRequest: position is an unconstrained float. -/
def MotorMoveRequest (v : JsonVal) : Except ValErr PyNum :=
  match v with
  | JsonVal.num n => Except.ok n
  | _ => Except.error { loc := "position", msg := "Input should be a valid number" }

/-- MotorSpeedRequest: speed is a float constrained by ge 0. -/
def MotorSpeedRequest (v : JsonVal) : Except ValErr PyNum :=
  match v with
  | JsonVal.num n =>
      if 0 ≤ n.val then Except.ok n
      else Except.error { loc := "speed", msg := "Input should be greater than or equal to 0" }
  | _ => Except.error { loc := "speed", msg := "Input should be a valid number" }

/-- FastAPI request dispatch around a camera endpoint: the dependency is
solved first (get_pysilico_camera runs to its yield before the body params
are validated; see fastapi.dependencies.utils.solve_dependencies, which
solves sub-dependencies before calling request_body_to_args).  An
HTTPException from the dependency aborts the request; otherwise the body is
validated, a failure producing a 422 without calling the endpoint handler.
When the handler itself raises, FastAPI (since 0.106) throws the exception
into get_pysilico_camera at its yield, where the except Exception clause
rewraps it into the "Could not connect to camera" HTTPException that the
client then sees.  The dependency finally block (the release) runs on every
one of these exit paths. -/
def runWithCameraDep {α : Type} (c : ConnectResult) (validated : Except ValErr α)
    (k : Option Handle → α → Except Exc HttpResponse × List Event) :
    HttpResponse × List Event :=
  match get_pysilico_camera c with
  | Except.error e => (httpErrorResponse e, [Event.connectCamera, Event.released none])
  | Except.ok cam =>
    match validated with
    | Except.error ve =>
        (resp422 ve, [Event.connectCamera, Event.acquired cam, Event.released cam])
    | Except.ok a =>
        let r := k cam a
        let resp := match r.fst with
          | Except.ok resp => resp
          | Except.error e =>
              httpErrorResponse (Exc.httpExc 500 ("Could not connect to camera: " ++ strExc e))
        (resp, Event.connectCamera :: Event.acquired cam :: (r.snd ++ [Event.released cam]))

/-- FastAPI request dispatch around a motor endpoint, analogous to
runWithCameraDep but over get_plico_motor, which never yields None: a
handler-raised exception is thrown into get_plico_motor at its yield and
rewrapped by its except Exception clause into the "Could not connect to
motor" HTTPException. -/
def runWithMotorDep {α : Type} (a : MotorConnectAttempt) (validated : Except ValErr α)
    (k : Handle → α → Except Exc HttpResponse × List Event) : HttpResponse × List Event :=
  match get_plico_motor a with
  | Except.error e => (httpErrorResponse e, [Event.connectMotor, Event.released none])
  | Except.ok h =>
    match validated with
    | Except.error ve =>
        (resp422 ve, [Event.connectMotor, Event.acquired (some h), Event.released (some h)])
    | Except.ok x =>
        let r := k h x
        let resp := match r.fst with
          | Except.ok resp => resp
          | Except.error e =>
              httpErrorResponse (Exc.httpExc 500 ("Could not connect to motor: " ++ strExc e))
        (resp, Event.connectMotor :: Event.acquired (some h) ::
          (r.snd ++ [Event.released (some h)]))

/-! Endpoint handler bodies (the code inside each route function after the
dependency has been resolved and the body validated). -/

/-- Body of set_exposure (camera.py): one setExposureTime call; success
returns the message echoing the value, an exception raises an
HTTPException(500) wrapping it (which the dependency then rewraps, see
runWithCameraDep).  When the dependency yielded None, the attribute lookup
camera.setExposureTime raises an AttributeError caught by the same except
clause. -/
def set_exposure_handler (cam : Option Handle) (v : PyNum) (op : OpResult Unit) :
    Except Exc HttpResponse × List Event :=
  match cam with
  | none =>
      (Except.error (Exc.httpExc 500
        ("Could not set exposure time: " ++ noneAttrMsg "setExposureTime")), [])
  | some h =>
    match op with
    | OpResult.ok _ =>
        (Except.ok (jsonMessage ("Exposure time set to " ++ v.str ++ " us")),
          [Event.instrCall (some h) "setExposureTime" (some v)])
    | OpResult.raises e =>
        (Except.error (Exc.httpExc 500 ("Could not set exposure time: " ++ strExc e)),
          [Event.instrCall (some h) "setExposureTime" (some v)])

/-- Body of set_gain (camera.py). -/
def set_gain_handler (cam : Option Handle) (v : PyNum) (op : OpResult Unit) :
    Except Exc HttpResponse × List Event :=
  match cam with
  | none =>
      (Except.error (Exc.httpExc 500 ("Could not set gain: " ++ noneAttrMsg "set_gain")), [])
  | some h =>
    match op with
    | OpResult.ok _ =>
        (Except.ok (jsonMessage ("Gain set to " ++ v.str)),
          [Event.instrCall (some h) "set_gain" (some v)])
    | OpResult.raises e =>
        (Except.error (Exc.httpExc 500 ("Could not set gain: " ++ strExc e)),
          [Event.instrCall (some h) "set_gain" (some v)])

/-- Body of get_single_frame (camera.py): getFrameForDisplay, a falsy check
that raises HTTPException(500, "No frames received from camera"),
toNumpyArray, cv2.imencode with its success flag, and a generic except
clause that rewraps every exception - the inner HTTPExceptions included -
into a raised HTTPException(500, "Error acquiring or encoding frame: <e>")
(which the dependency then rewraps once more, see runWithCameraDep). -/
def get_single_frame_handler (cam : Option Handle) (acq : OpResult (Option Frame))
    (conv : OpResult NDArray) (enc : OpResult (Bool × Bytes)) :
    Except Exc HttpResponse × List Event :=
  match cam with
  | none =>
      (Except.error (Exc.httpExc 500
        ("Error acquiring or encoding frame: " ++ noneAttrMsg "getFrameForDisplay")), [])
  | some h =>
    match acq with
    | OpResult.raises e =>
        (Except.error (Exc.httpExc 500 ("Error acquiring or encoding frame: " ++ strExc e)),
          [Event.instrCall (some h) "getFrameForDisplay" none])
    | OpResult.ok none =>
        (Except.error (Exc.httpExc 500 ("Error acquiring or encoding frame: " ++
            strExc (Exc.httpExc 500 "No frames received from camera"))),
          [Event.instrCall (some h) "getFrameForDisplay" none])
    | OpResult.ok (some _) =>
      match conv with
      | OpResult.raises e =>
          (Except.error (Exc.httpExc 500 ("Error acquiring or encoding frame: " ++ strExc e)),
            [Event.instrCall (some h) "getFrameForDisplay" none])
      | OpResult.ok _ =>
        match enc with
        | OpResult.raises e =>
            (Except.error (Exc.httpExc 500
              ("Error acquiring or encoding frame: " ++ strExc e)),
              [Event.instrCall (some h) "getFrameForDisplay" none])
        | OpResult.ok (false, _) =>
            (Except.error (Exc.httpExc 500 ("Error acquiring or encoding frame: " ++
                strExc (Exc.httpExc 500 "Could not encode frame to JPEG"))),
              [Event.instrCall (some h) "getFrameForDisplay" none])
        | OpResult.ok (true, buf) =>
            (Except.ok { statusCode := 200, contentType := "image/jpeg", body := RespBody.jpegBytes buf },
              [Event.instrCall (some h) "getFrameForDisplay" none])

/-- Environment of one GET /frame request. -/
structure FrameEnv where
  connect : ConnectResult
  getFrameForDisplay : OpResult (Option Frame)
  toNumpyArray : OpResult NDArray
  imencode : OpResult (Bool × Bytes)
deriving DecidableEq

/-- Full run of GET /frame. -/
def get_single_frame (env : FrameEnv) : HttpResponse × List Event :=
  runWithCameraDep env.connect (Except.ok PUnit.unit)
    (fun cam _ => get_single_frame_handler cam env.getFrameForDisplay env.toNumpyArray env.imencode)

/-- Environment of one PUT /exposure request. -/
structure ExposureEnv where
  connect : ConnectResult
  body : JsonVal
  setExposureTime : OpResult Unit
deriving DecidableEq

/-- Full run of PUT /exposure. -/
def set_exposure (env : ExposureEnv) : HttpResponse × List Event :=
  runWithCameraDep env.connect (ExposureSettings env.body)
    (fun cam v => set_exposure_handler cam v env.setExposureTime)

/-- Environment of one PUT /gain request. -/
structure GainEnv where
  connect : ConnectResult
  body : JsonVal
  set_gain : OpResult Unit
deriving DecidableEq

/-- Full run of PUT /gain. -/
def set_gain (env : GainEnv) : HttpResponse × List Event :=
  runWithCameraDep env.connect (GainSettings env.body)
    (fun cam v => set_gain_handler cam v env.set_gain)

/-- Body of move_motor (motor.py). -/
def move_motor_handler (h : Handle) (pos : PyNum) (op : OpResult Unit) :
    Except Exc HttpResponse × List Event :=
  match op with
  | OpResult.ok _ =>
      (Except.ok (jsonMessage ("Motor moving to position: " ++ pos.str)),
        [Event.instrCall (some h) "move" (some pos)])
  | OpResult.raises e =>
      (Except.error (Exc.httpExc 500 ("Could not move motor: " ++ strExc e)),
        [Event.instrCall (some h) "move" (some pos)])

/-- Environment of one PUT /move request. -/
structure MoveEnv where
  connect : MotorConnectAttempt
  body : JsonVal
  move : OpResult Unit
deriving DecidableEq

/-- Full run of PUT /move. -/
def move_motor (env : MoveEnv) : HttpResponse × List Event :=
  runWithMotorDep env.connect (MotorMoveRequest env.body)
    (fun h pos => move_motor_handler h pos env.move)

/-- Body of get_motor_position (motor.py). -/
def get_motor_position_handler (h : Handle) (op : OpResult PyNum) :
    Except Exc HttpResponse × List Event :=
  match op with
  | OpResult.ok p =>
      (Except.ok { statusCode := 200, contentType := "application/json", body := RespBody.position p },
        [Event.instrCall (some h) "get_position" none])
  | OpResult.raises e =>
      (Except.error (Exc.httpExc 500 ("Could not get motor position: " ++ strExc e)),
        [Event.instrCall (some h) "get_position" none])

/-- Environment of one GET /position request. -/
structure PositionEnv where
  connect : MotorConnectAttempt
  get_position : OpResult PyNum
deriving DecidableEq

/-- Full run of GET /position. -/
def get_motor_position (env : PositionEnv) : HttpResponse × List Event :=
  runWithMotorDep env.connect (Except.ok PUnit.unit)
    (fun h _ => get_motor_position_handler h env.get_position)

/-- Body of set_motor_speed (motor.py). -/
def set_motor_speed_handler (h : Handle) (v : PyNum) (op : OpResult Unit) :
    Except Exc HttpResponse × List Event :=
  match op with
  | OpResult.ok _ =>
      (Except.ok (jsonMessage ("Motor speed set to: " ++ v.str)),
        [Event.instrCall (some h) "set_speed" (some v)])
  | OpResult.raises e =>
      (Except.error (Exc.httpExc 500 ("Could not set motor speed: " ++ strExc e)),
        [Event.instrCall (some h) "set_speed" (some v)])

/-- Environment of one PUT /speed request. -/
structure SpeedEnv where
  connect : MotorConnectAttempt
  body : JsonVal
  set_speed : OpResult Unit
deriving DecidableEq

/-- Full run of PUT /speed. -/
def set_motor_speed (env : SpeedEnv) : HttpResponse × List Event :=
  runWithMotorDep env.connect (MotorSpeedRequest env.body)
    (fun h v => set_motor_speed_handler h v env.set_speed)

/-! WebSocket streaming handler (camera.py websocket_camera_stream). -/

/-- The WebSocket close codes actually exported by starlette.status (which
fastapi.status re-exports wholesale). -/
def starletteStatusWS : List (String × Nat) :=
  [ ("WS_1000_NORMAL_CLOSURE", 1000)
  , ("WS_1001_GOING_AWAY", 1001)
  , ("WS_1002_PROTOCOL_ERROR", 1002)
  , ("WS_1003_UNSUPPORTED_DATA", 1003)
  , ("WS_1005_NO_STATUS_RCVD", 1005)
  , ("WS_1006_ABNORMAL_CLOSURE", 1006)
  , ("WS_1007_INVALID_FRAME_PAYLOAD_DATA", 1007)
  , ("WS_1008_POLICY_VIOLATION", 1008)
  , ("WS_1009_MESSAGE_TOO_BIG", 1009)
  , ("WS_1010_MANDATORY_EXT", 1010)
  , ("WS_1011_INTERNAL_ERROR", 1011)
  , ("WS_1012_SERVICE_RESTART", 1012)
  , ("WS_1013_TRY_AGAIN_LATER", 1013)
  , ("WS_1014_BAD_GATEWAY", 1014)
  , ("WS_1015_TLS_HANDSHAKE", 1015) ]

/-- Python attribute lookup on the status module: some code when the
attribute exists, none (an AttributeError) when it does not. -/
def statusAttrWS (nm : String) : Option Nat :=
  (List.find? (fun p => p.fst == nm) starletteStatusWS).map Prod.snd

/-- Behaviour of the external collaborators during one iteration of the
streaming loop: camera.getFutureFrames(1), cv2.imencode, and
websocket.send_bytes (whose raising WebSocketDisconnect models the peer
having closed the channel). -/
structure IterEnv where
  getFutureFrames : OpResult (List Frame)
  imencode : OpResult (Bool × Bytes)
  sendBytes : OpResult Unit
deriving DecidableEq

/-- The body of one loop iteration up to its exception handlers: ok none
means the iteration completed without sending (no frame, or encode failure);
ok (some b) means bytes b were sent; error e means exception e was raised. -/
def iterBody (env : IterEnv) : Except Exc (Option Bytes) :=
  match env.getFutureFrames with
  | OpResult.raises e => Except.error e
  | OpResult.ok [] => Except.ok none
  | OpResult.ok (_ :: _) =>
    match env.imencode with
    | OpResult.raises e => Except.error e
    | OpResult.ok (false, _) => Except.ok none
    | OpResult.ok (true, buf) =>
      match env.sendBytes with
      | OpResult.raises e => Except.error e
      | OpResult.ok _ => Except.ok (some buf)

/-- Result of one loop iteration after its exception handlers. -/
inductive StepResult where
  | cont (sent : Option Bytes)
  | exitDisconnect
  | exitClose (code : Nat) (reason : String)
  | exitRaised (e : Exc)
deriving DecidableEq

/-- The generic except clause of the loop: it evaluates
status.WS_500_INTERNAL_ERROR to build the close call.  That attribute does
not exist in starlette.status, so the lookup itself raises an AttributeError
and the close call never happens. -/
def wsCloseOnError (e : Exc) : StepResult :=
  match statusAttrWS "WS_500_INTERNAL_ERROR" with
  | some code => StepResult.exitClose code ("Server error: " ++ strExc e)
  | none =>
      StepResult.exitRaised
        (Exc.other "module starlette.status has no attribute WS_500_INTERNAL_ERROR")

/-- One full iteration of the streaming loop: the except WebSocketDisconnect
clause breaks out of the loop, and every other exception reaches the generic
except clause. -/
def wsStreamStep (env : IterEnv) : StepResult :=
  match iterBody env with
  | Except.ok sent => StepResult.cont sent
  | Except.error Exc.wsDisconnect => StepResult.exitDisconnect
  | Except.error e => wsCloseOnError e

/-- How a (truncated) run of the streaming loop ended. -/
inductive StreamExit where
  | running
  | disconnect
  | closedFrame (code : Nat) (reason : String)
  | raised (e : Exc)
deriving DecidableEq

/-- Run of the while True loop over a finite prefix of iteration behaviours;
running means the supplied iterations were exhausted with the connection
still open.  Returns the binary messages delivered and how the loop ended. -/
def wsStreamRun : List IterEnv → List Bytes × StreamExit
  | [] => ([], StreamExit.running)
  | env :: rest =>
    match wsStreamStep env with
    | StepResult.cont none => wsStreamRun rest
    | StepResult.cont (some b) =>
        let r := wsStreamRun rest
        (b :: r.fst, r.snd)
    | StepResult.exitDisconnect => ([], StreamExit.disconnect)
    | StepResult.exitClose c s => ([], StreamExit.closedFrame c s)
    | StepResult.exitRaised e => ([], StreamExit.raised e)

/-- Outcome of one WebSocket connection to /ws/camera/stream. -/
structure WsRun where
  accepted : Bool
  sent : List Bytes
  exitState : StreamExit
  trace : List Event
deriving DecidableEq

/-- Helper turning the step taken on a None camera into the final exit. -/
def exitOfStep : StepResult → StreamExit
  | StepResult.cont _ => StreamExit.running
  | StepResult.exitDisconnect => StreamExit.disconnect
  | StepResult.exitClose c s => StreamExit.closedFrame c s
  | StepResult.exitRaised e => StreamExit.raised e

/-- Full run of the websocket_camera_stream handler: the camera dependency is
solved before the handler runs (a connection failure terminates before
accept); then the channel is accepted and the loop runs; the dependency
finally block runs when the handler returns or raises.  A None camera makes
the first iteration raise an AttributeError on camera.getFutureFrames, which
reaches the generic except clause. -/
def websocket_camera_stream (c : ConnectResult) (iters : List IterEnv) : WsRun :=
  match get_pysilico_camera c with
  | Except.error e =>
      { accepted := false, sent := [], exitState := StreamExit.raised e
      , trace := [Event.connectCamera, Event.released none] }
  | Except.ok none =>
      { accepted := true, sent := []
      , exitState := exitOfStep (wsCloseOnError (Exc.other (noneAttrMsg "getFutureFrames")))
      , trace := [Event.connectCamera, Event.acquired none, Event.released none] }
  | Except.ok (some h) =>
      let r := wsStreamRun iters
      { accepted := true, sent := r.fst, exitState := r.snd
      , trace := [Event.connectCamera, Event.acquired (some h), Event.released (some h)] }

/-! Trace measures used by the lifecycle claims. -/

/-- Whether an event records a real (non-None) handle being yielded. -/
def isRealAcquire : Event → Bool
  | Event.acquired (some _) => true
  | _ => false

/-- Whether an event records the dependency cleanup running with a real
handle in scope. -/
def isRealRelease : Event → Bool
  | Event.released (some _) => true
  | _ => false

/-- Whether an event is an instrument method call. -/
def isInstrCallEvent : Event → Bool
  | Event.instrCall _ _ _ => true
  | _ => false

/-- Number of real handle acquisitions in a trace. -/
def countAcq (t : List Event) : Nat := (t.filter isRealAcquire).length

/-- Number of real handle releases in a trace. -/
def countRel (t : List Event) : Nat := (t.filter isRealRelease).length

/-- Whether any instrument method was invoked in a trace. -/
def hasInstrCall (t : List Event) : Bool := t.any isInstrCallEvent

/-- Number of calls of a given method with a given argument in a trace. -/
def countCall (t : List Event) (nm : String) (v : Option PyNum) : Nat :=
  (t.filter (fun e =>
    match e with
    | Event.instrCall _ n a => decide (n = nm) && decide (a = v)
    | _ => false)).length

/-- The real handles acquired in a trace. -/
def handlesOf (t : List Event) : List Handle :=
  t.filterMap (fun e =>
    match e with
    | Event.acquired (some h) => some h
    | _ => none)

/-- Whether a step sends a close frame over the channel. -/
def sendsCloseFrame : StepResult → Bool
  | StepResult.exitClose _ _ => true
  | _ => false

/-- Whether a response body is a JPEG byte body. -/
def isJpegBody : RespBody → Bool
  | RespBody.jpegBytes _ => true
  | _ => false

/-- Whether a response is a structured 422 validation response. -/
def isValidationResp (r : HttpResponse) : Bool :=
  match r.body with
  | RespBody.validationDetail _ => decide (r.statusCode = 422)
  | _ => false

/-- String s contains sub as a substring. -/
def strContains (s sub : String) : Prop := ∃ p q, s = p ++ sub ++ q

/-! Concrete sample behaviours of the external collaborators, used to
evaluate the endpoint embeddings on closed inputs. -/

/-- A loop iteration in which getFutureFrames returns an empty list. -/
def iterNoFrame : IterEnv :=
  { getFutureFrames := OpResult.ok [], imencode := OpResult.ok (true, [7])
  , sendBytes := OpResult.ok () }

/-- A loop iteration in which imencode reports failure. -/
def iterEncodeFail : IterEnv :=
  { getFutureFrames := OpResult.ok [0], imencode := OpResult.ok (false, [])
  , sendBytes := OpResult.ok () }

/-- A loop iteration that acquires, encodes and sends one frame. -/
def iterGood : IterEnv :=
  { getFutureFrames := OpResult.ok [0], imencode := OpResult.ok (true, [7])
  , sendBytes := OpResult.ok () }

/-- A loop iteration whose send raises WebSocketDisconnect. -/
def iterDisconnect : IterEnv :=
  { getFutureFrames := OpResult.ok [1], imencode := OpResult.ok (true, [9])
  , sendBytes := OpResult.raises Exc.wsDisconnect }

/-- A loop iteration whose frame acquisition raises a RuntimeError. -/
def iterBoom : IterEnv :=
  { getFutureFrames := OpResult.raises (Exc.other "boom")
  , imencode := OpResult.ok (true, []), sendBytes := OpResult.ok () }

/-- A PUT /exposure request with a valid body against a live camera. -/
def envExposureOk : ExposureEnv :=
  { connect := ConnectResult.ok 3, body := JsonVal.num { val := 5, str := "5.0" }
  , setExposureTime := OpResult.ok () }

/-- A PUT /exposure request with a non-positive exposure value. -/
def envExposureNeg : ExposureEnv :=
  { connect := ConnectResult.ok 7, body := JsonVal.num { val := -1, str := "-1.0" }
  , setExposureTime := OpResult.ok () }

/-- A PUT /exposure request for which pysilico.camera returned None. -/
def envExposureNull : ExposureEnv :=
  { connect := ConnectResult.null, body := JsonVal.num { val := 5, str := "5.0" }
  , setExposureTime := OpResult.ok () }

/-- A PUT /exposure request whose camera connection raises. -/
def envExposureConnFail : ExposureEnv :=
  { connect := ConnectResult.raises (Exc.other "refused")
  , body := JsonVal.num { val := 5, str := "5.0" }, setExposureTime := OpResult.ok () }

/-- A second PUT /exposure request, to a distinct camera session. -/
def envExposureOk2 : ExposureEnv :=
  { connect := ConnectResult.ok 4, body := JsonVal.num { val := 5, str := "5.0" }
  , setExposureTime := OpResult.ok () }

/-- A fast successful motor connection attempt to handle 2. -/
def attemptMotorOk : MotorConnectAttempt :=
  { duration := 1, result := ConnectResult.ok 2 }

/-- A motor connection attempt exceeding the timeout. -/
def attemptMotorSlow : MotorConnectAttempt :=
  { duration := 11, result := ConnectResult.ok 2 }

/-- A fast motor connection attempt that returns None. -/
def attemptMotorNull : MotorConnectAttempt :=
  { duration := 1, result := ConnectResult.null }

/-- A fast motor connection attempt that raises. -/
def attemptMotorFail : MotorConnectAttempt :=
  { duration := 1, result := ConnectResult.raises (Exc.other "refused") }

/-- A PUT /move request moving to 50.0 on a live motor. -/
def envMoveOk : MoveEnv :=
  { connect := attemptMotorOk, body := JsonVal.num { val := 50, str := "50.0" }
  , move := OpResult.ok () }

/-- A PUT /move request with a non-numeric position. -/
def envMoveBadType : MoveEnv :=
  { connect := attemptMotorOk, body := JsonVal.str "invalid_position"
  , move := OpResult.ok () }

/-- A GET /position request whose get_position returns 10.0. -/
def envPositionOk : PositionEnv :=
  { connect := attemptMotorOk, get_position := OpResult.ok { val := 10, str := "10.0" } }

/-- A PUT /speed request setting 100.0 on a live motor. -/
def envSpeedOk : SpeedEnv :=
  { connect := attemptMotorOk, body := JsonVal.num { val := 100, str := "100.0" }
  , set_speed := OpResult.ok () }

/-- A PUT /speed request with a negative speed. -/
def envSpeedNeg : SpeedEnv :=
  { connect := attemptMotorOk, body := JsonVal.num { val := -2, str := "-2.0" }
  , set_speed := OpResult.ok () }

/-- A PUT /gain request with a negative gain. -/
def envGainNeg : GainEnv :=
  { connect := ConnectResult.ok 3, body := JsonVal.num { val := -1, str := "-1.0" }
  , set_gain := OpResult.ok () }

/-- A GET /frame request that acquires and encodes one frame successfully. -/
def envFrameOk : FrameEnv :=
  { connect := ConnectResult.ok 3, getFrameForDisplay := OpResult.ok (some 0)
  , toNumpyArray := OpResult.ok 0, imencode := OpResult.ok (true, [255, 216]) }

/-- A GET /frame request in which the camera returns no frame. -/
def envFrameNone : FrameEnv :=
  { connect := ConnectResult.ok 3, getFrameForDisplay := OpResult.ok none
  , toNumpyArray := OpResult.ok 0, imencode := OpResult.ok (true, [255, 216]) }

/-- A GET /frame request in which JPEG encoding fails. -/
def envFrameEncodeFail : FrameEnv :=
  { connect := ConnectResult.ok 3, getFrameForDisplay := OpResult.ok (some 0)
  , toNumpyArray := OpResult.ok 0, imencode := OpResult.ok (false, []) }

/-! Helper lemmas shared by the claim theorems. -/

theorem string_append_left_cancel (a b c : String) (h : a ++ b = a ++ c) : b = c := by
  have hd := congrArg String.data h
  simp [String.data_append] at hd
  exact String.ext hd

theorem wsStreamRun_snd_append_cont (pre l : List IterEnv)
    (h : ∀ e, e ∈ pre → ∃ s, wsStreamStep e = StepResult.cont s) :
    (wsStreamRun (pre ++ l)).snd = (wsStreamRun l).snd := by
  induction pre with
  | nil => rfl
  | cons p ps ih =>
    obtain ⟨s, hs⟩ := h p (List.mem_cons_self p ps)
    have ih2 := ih (fun e he => h e (List.mem_cons_of_mem p he))
    cases s with
    | none => simpa [wsStreamRun, hs] using ih2
    | some b => simpa [wsStreamRun, hs] using ih2

theorem trace_all_instr_measures (t : List Event)
    (h : ∀ e, e ∈ t → isInstrCallEvent e = true) :
    countAcq t = 0 ∧ countRel t = 0 ∧ handlesOf t = [] := by
  induction t with
  | nil => exact ⟨rfl, rfl, rfl⟩
  | cons x xs ih =>
    have hx := h x (List.mem_cons_self x xs)
    have ih2 := ih (fun e he => h e (List.mem_cons_of_mem x he))
    cases x with
    | instrCall a b c =>
        simpa [countAcq, countRel, handlesOf, isRealAcquire, isRealRelease,
          List.filter_cons, List.filterMap_cons] using ih2
    | connectCamera => simp [isInstrCallEvent] at hx
    | connectMotor => simp [isInstrCallEvent] at hx
    | acquired a => simp [isInstrCallEvent] at hx
    | released a => simp [isInstrCallEvent] at hx

theorem set_exposure_handler_all_instr (cam : Option Handle) (v : PyNum) (op : OpResult Unit) :
    ∀ e, e ∈ (set_exposure_handler cam v op).snd → isInstrCallEvent e = true := by
  cases cam with
  | none => intro e he; simp [set_exposure_handler] at he
  | some h =>
    cases op with
    | ok a =>
        intro e he
        simp [set_exposure_handler] at he
        simp [he, isInstrCallEvent]
    | raises ex =>
        intro e he
        simp [set_exposure_handler] at he
        simp [he, isInstrCallEvent]

theorem set_gain_handler_all_instr (cam : Option Handle) (v : PyNum) (op : OpResult Unit) :
    ∀ e, e ∈ (set_gain_handler cam v op).snd → isInstrCallEvent e = true := by
  cases cam with
  | none => intro e he; simp [set_gain_handler] at he
  | some h =>
    cases op with
    | ok a =>
        intro e he
        simp [set_gain_handler] at he
        simp [he, isInstrCallEvent]
    | raises ex =>
        intro e he
        simp [set_gain_handler] at he
        simp [he, isInstrCallEvent]

theorem get_single_frame_handler_all_instr (cam : Option Handle) (acq : OpResult (Option Frame))
    (conv : OpResult NDArray) (enc : OpResult (Bool × Bytes)) :
    ∀ e, e ∈ (get_single_frame_handler cam acq conv enc).snd → isInstrCallEvent e = true := by
  intro e he
  cases cam with
  | none => simp [get_single_frame_handler] at he
  | some h =>
    cases acq with
    | raises ex =>
        simp [get_single_frame_handler] at he
        simp [he, isInstrCallEvent]
    | ok fo =>
      cases fo with
      | none =>
          simp [get_single_frame_handler] at he
          simp [he, isInstrCallEvent]
      | some f =>
        cases conv with
        | raises ex =>
            simp [get_single_frame_handler] at he
            simp [he, isInstrCallEvent]
        | ok arr =>
          cases enc with
          | raises ex =>
              simp [get_single_frame_handler] at he
              simp [he, isInstrCallEvent]
          | ok p =>
            cases p with
            | mk flag buf =>
              cases flag with
              | false =>
                  simp [get_single_frame_handler] at he
                  simp [he, isInstrCallEvent]
              | true =>
                  simp [get_single_frame_handler] at he
                  simp [he, isInstrCallEvent]

theorem move_motor_handler_all_instr (h : Handle) (pos : PyNum) (op : OpResult Unit) :
    ∀ e, e ∈ (move_motor_handler h pos op).snd → isInstrCallEvent e = true := by
  intro e he
  cases op with
  | ok a =>
      simp [move_motor_handler] at he
      simp [he, isInstrCallEvent]
  | raises ex =>
      simp [move_motor_handler] at he
      simp [he, isInstrCallEvent]

theorem get_motor_position_handler_all_instr (h : Handle) (op : OpResult PyNum) :
    ∀ e, e ∈ (get_motor_position_handler h op).snd → isInstrCallEvent e = true := by
  intro e he
  cases op with
  | ok a =>
      simp [get_motor_position_handler] at he
      simp [he, isInstrCallEvent]
  | raises ex =>
      simp [get_motor_position_handler] at he
      simp [he, isInstrCallEvent]

theorem set_motor_speed_handler_all_instr (h : Handle) (v : PyNum) (op : OpResult Unit) :
    ∀ e, e ∈ (set_motor_speed_handler h v op).snd → isInstrCallEvent e = true := by
  intro e he
  cases op with
  | ok a =>
      simp [set_motor_speed_handler] at he
      simp [he, isInstrCallEvent]
  | raises ex =>
      simp [set_motor_speed_handler] at he
      simp [he, isInstrCallEvent]

theorem filter_acq_empty_of_count (t : List Event) (h : countAcq t = 0) :
    List.filter isRealAcquire t = [] := by
  simpa [countAcq, List.length_eq_zero] using h

theorem filter_rel_empty_of_count (t : List Event) (h : countRel t = 0) :
    List.filter isRealRelease t = [] := by
  simpa [countRel, List.length_eq_zero] using h

theorem runWithCameraDep_balanced {α : Type} (c : ConnectResult) (v : Except ValErr α)
    (k : Option Handle → α → Except Exc HttpResponse × List Event)
    (hk : ∀ cam a, ∀ e, e ∈ (k cam a).snd → isInstrCallEvent e = true) :
    countRel (runWithCameraDep c v k).snd = countAcq (runWithCameraDep c v k).snd ∧
    countAcq (runWithCameraDep c v k).snd ≤ 1 := by
  cases c with
  | raises e =>
      simp [runWithCameraDep, get_pysilico_camera, countAcq, countRel,
        isRealAcquire, isRealRelease, httpErrorResponse]
  | null =>
    cases v with
    | error ve =>
        simp [runWithCameraDep, get_pysilico_camera, countAcq, countRel,
          isRealAcquire, isRealRelease]
    | ok a =>
        obtain ⟨h1, h2, _⟩ := trace_all_instr_measures (k none a).snd (hk none a)
        have ha := filter_acq_empty_of_count _ h1
        have hb := filter_rel_empty_of_count _ h2
        simp [runWithCameraDep, get_pysilico_camera, countAcq, countRel,
          isRealAcquire, isRealRelease, List.filter_append, ha, hb]
  | ok h =>
    cases v with
    | error ve =>
        simp [runWithCameraDep, get_pysilico_camera, countAcq, countRel,
          isRealAcquire, isRealRelease]
    | ok a =>
        obtain ⟨h1, h2, _⟩ := trace_all_instr_measures (k (some h) a).snd (hk (some h) a)
        have ha := filter_acq_empty_of_count _ h1
        have hb := filter_rel_empty_of_count _ h2
        simp [runWithCameraDep, get_pysilico_camera, countAcq, countRel,
          isRealAcquire, isRealRelease, List.filter_append, ha, hb]

theorem runWithMotorDep_balanced {α : Type} (a : MotorConnectAttempt) (v : Except ValErr α)
    (k : Handle → α → Except Exc HttpResponse × List Event)
    (hk : ∀ h x, ∀ e, e ∈ (k h x).snd → isInstrCallEvent e = true) :
    countRel (runWithMotorDep a v k).snd = countAcq (runWithMotorDep a v k).snd ∧
    countAcq (runWithMotorDep a v k).snd ≤ 1 := by
  rcases hm : get_plico_motor a with e | h
  · simp [runWithMotorDep, hm, countAcq, countRel, isRealAcquire, isRealRelease]
  · cases v with
    | error ve =>
        simp [runWithMotorDep, hm, countAcq, countRel, isRealAcquire, isRealRelease]
    | ok x =>
        obtain ⟨h1, h2, _⟩ := trace_all_instr_measures (k h x).snd (hk h x)
        have ha := filter_acq_empty_of_count _ h1
        have hb := filter_rel_empty_of_count _ h2
        simp [runWithMotorDep, hm, countAcq, countRel,
          isRealAcquire, isRealRelease, List.filter_append, ha, hb]

theorem runWithCameraDep_handles {α : Type} (c : ConnectResult) (v : Except ValErr α)
    (k : Option Handle → α → Except Exc HttpResponse × List Event)
    (hk : ∀ cam a, ∀ e, e ∈ (k cam a).snd → isInstrCallEvent e = true)
    (h : Handle) (hm : h ∈ handlesOf (runWithCameraDep c v k).snd) :
    c = ConnectResult.ok h := by
  cases c with
  | raises e =>
      simp [runWithCameraDep, get_pysilico_camera, handlesOf, httpErrorResponse] at hm
  | null =>
    cases v with
    | error ve => simp [runWithCameraDep, get_pysilico_camera, handlesOf] at hm
    | ok a =>
        obtain ⟨_, _, h3⟩ := trace_all_instr_measures (k none a).snd (hk none a)
        rw [runWithCameraDep] at hm
        simp only [get_pysilico_camera] at hm
        simp only [handlesOf, List.filterMap_cons, List.filterMap_append] at hm h3
        simp [h3] at hm
  | ok h2 =>
    cases v with
    | error ve =>
        simp [runWithCameraDep, get_pysilico_camera, handlesOf] at hm
        simp [hm]
    | ok a =>
        obtain ⟨_, _, h3⟩ := trace_all_instr_measures (k (some h2) a).snd (hk (some h2) a)
        rw [runWithCameraDep] at hm
        simp only [get_pysilico_camera] at hm
        simp only [handlesOf, List.filterMap_cons, List.filterMap_append] at hm h3
        simp [h3] at hm
        simp [hm]

theorem get_plico_motor_ok (a : MotorConnectAttempt) (h : Handle)
    (hm : get_plico_motor a = Except.ok h) : a.result = ConnectResult.ok h := by
  unfold get_plico_motor at hm
  split at hm
  · cases hm
  · cases hr : a.result with
    | ok h2 => rw [hr] at hm; cases hm; rfl
    | null => rw [hr] at hm; cases hm
    | raises e => rw [hr] at hm; cases hm

theorem runWithMotorDep_handles {α : Type} (a : MotorConnectAttempt) (v : Except ValErr α)
    (k : Handle → α → Except Exc HttpResponse × List Event)
    (hk : ∀ h x, ∀ e, e ∈ (k h x).snd → isInstrCallEvent e = true)
    (h : Handle) (hm : h ∈ handlesOf (runWithMotorDep a v k).snd) :
    a.result = ConnectResult.ok h := by
  rcases hp : get_plico_motor a with e | h2
  · simp [runWithMotorDep, hp, handlesOf] at hm
  · cases v with
    | error ve =>
        simp [runWithMotorDep, hp, handlesOf] at hm
        rw [hm]
        exact get_plico_motor_ok a h2 hp
    | ok x =>
        obtain ⟨_, _, h3⟩ := trace_all_instr_measures (k h2 x).snd (hk h2 x)
        rw [runWithMotorDep] at hm
        rw [hp] at hm
        simp only [handlesOf, List.filterMap_cons, List.filterMap_append] at hm h3
        simp [h3] at hm
        rw [hm]
        exact get_plico_motor_ok a h2 hp

/-- C1: in the camera streaming handler a per-frame failure never terminates
the connection: an iteration whose getFutureFrames call returns no frame, or
whose JPEG encoding fails, continues the loop without sending anything, and a
subsequent successful iteration still delivers a binary frame. -/
theorem ws_stream_transient_iteration_tolerated (env : IterEnv) (rest : List IterEnv)
    (htrans : env.getFutureFrames = OpResult.ok [] ∨
      ((∃ f fs, env.getFutureFrames = OpResult.ok (f :: fs)) ∧
        (∃ b, env.imencode = OpResult.ok (false, b)))) :
    wsStreamStep env = StepResult.cont none ∧
    wsStreamRun (env :: rest) = wsStreamRun rest ∧
    (∀ (genv : IterEnv) (f : Frame) (fs : List Frame) (b : Bytes) (l : List IterEnv),
      genv.getFutureFrames = OpResult.ok (f :: fs) →
      genv.imencode = OpResult.ok (true, b) →
      genv.sendBytes = OpResult.ok () →
      (wsStreamRun (env :: genv :: l)).fst = b :: (wsStreamRun l).fst ∧
      (wsStreamRun (env :: genv :: l)).snd = (wsStreamRun l).snd) := by
  have hstep : wsStreamStep env = StepResult.cont none := by
    rcases htrans with h0 | ⟨⟨f, fs, hf⟩, ⟨b, hb⟩⟩
    · simp [wsStreamStep, iterBody, h0]
    · simp [wsStreamStep, iterBody, hf, hb]
  refine ⟨hstep, by simp [wsStreamRun, hstep], ?_⟩
  intro genv f fs b l hg he hs
  have hgood : wsStreamStep genv = StepResult.cont (some b) := by
    simp [wsStreamStep, iterBody, hg, he, hs]
  constructor
  · simp [wsStreamRun, hstep, hgood]
  · simp [wsStreamRun, hstep, hgood]

/-- Witness for C1 at a concrete trace: an empty-frame iteration followed by
a successful one still delivers the encoded frame. -/
theorem ws_stream_transient_iteration_tolerated_witness :
    wsStreamStep iterNoFrame = StepResult.cont none ∧
    (wsStreamRun [iterNoFrame, iterGood]).fst = [[7]] := by
  have h := ws_stream_transient_iteration_tolerated iterNoFrame [iterGood] (Or.inl rfl)
  refine ⟨h.1, ?_⟩
  have h3 := (h.2.2 iterGood 0 [] [7] [] rfl rfl rfl).1
  simpa [wsStreamRun] using h3

/-- C2: the claim says any non-disconnect exception in an iteration makes the
handler send a close frame carrying an internal-error code and the exception
text.  The code evaluates status.WS_500_INTERNAL_ERROR to build that close
call, but starlette.status (which fastapi.status re-exports) defines no such
attribute, so the except clause raises an AttributeError and no close frame
is ever sent: the loop exits by exception instead. -/
theorem ws_stream_error_path_raises_attribute_error :
    statusAttrWS "WS_500_INTERNAL_ERROR" = none ∧
    wsStreamStep iterBoom = StepResult.exitRaised
      (Exc.other "module starlette.status has no attribute WS_500_INTERNAL_ERROR") ∧
    sendsCloseFrame (wsStreamStep iterBoom) = false := by
  refine ⟨by decide, by decide, by decide⟩

/-- C3: when the peer disconnects, the streaming handler exits the loop
without sending a close frame and without raising, and the instrument handle
is released exactly once before the handler returns. -/
theorem ws_stream_disconnect_releases_once (h : Handle) (pre : List IterEnv)
    (env : IterEnv) (rest : List IterEnv)
    (hpre : ∀ e, e ∈ pre → ∃ s, wsStreamStep e = StepResult.cont s)
    (hdc : iterBody env = Except.error Exc.wsDisconnect) :
    (websocket_camera_stream (ConnectResult.ok h) (pre ++ env :: rest)).exitState =
      StreamExit.disconnect ∧
    countRel (websocket_camera_stream (ConnectResult.ok h) (pre ++ env :: rest)).trace = 1 ∧
    countAcq (websocket_camera_stream (ConnectResult.ok h) (pre ++ env :: rest)).trace = 1 := by
  have hstep : wsStreamStep env = StepResult.exitDisconnect := by
    simp [wsStreamStep, hdc]
  have hexit : (wsStreamRun (pre ++ env :: rest)).snd = StreamExit.disconnect := by
    rw [wsStreamRun_snd_append_cont pre (env :: rest) hpre]
    simp [wsStreamRun, hstep]
  refine ⟨?_, ?_, ?_⟩
  · simpa [websocket_camera_stream, get_pysilico_camera] using hexit
  · simp [websocket_camera_stream, get_pysilico_camera, countRel, isRealRelease]
  · simp [websocket_camera_stream, get_pysilico_camera, countAcq, isRealAcquire]

/-- Witness for C3 at a concrete connection: one empty-frame iteration, then
a send that raises WebSocketDisconnect. -/
theorem ws_stream_disconnect_releases_once_witness :
    (websocket_camera_stream (ConnectResult.ok 5)
      ([iterNoFrame] ++ iterDisconnect :: [])).exitState = StreamExit.disconnect ∧
    countRel (websocket_camera_stream (ConnectResult.ok 5)
      ([iterNoFrame] ++ iterDisconnect :: [])).trace = 1 := by
  have h := ws_stream_disconnect_releases_once 5 [iterNoFrame] iterDisconnect []
    (by intro e he; simp at he; subst he; exact ⟨none, rfl⟩) rfl
  exact ⟨h.1, h.2.1⟩

/-- C4: the instrument handle acquired for a request or streaming connection
is exactly the session its own connection call returned - so sessions from
distinct connection calls are never shared - and on every exit path of every
endpoint the number of releases (dependency cleanups with a live handle)
equals the number of acquisitions, which is at most one. -/
theorem instrument_handle_lifecycle :
    (∀ env : ExposureEnv,
      countRel (set_exposure env).snd = countAcq (set_exposure env).snd ∧
      countAcq (set_exposure env).snd ≤ 1) ∧
    (∀ env : GainEnv,
      countRel (set_gain env).snd = countAcq (set_gain env).snd ∧
      countAcq (set_gain env).snd ≤ 1) ∧
    (∀ env : FrameEnv,
      countRel (get_single_frame env).snd = countAcq (get_single_frame env).snd ∧
      countAcq (get_single_frame env).snd ≤ 1) ∧
    (∀ env : MoveEnv,
      countRel (move_motor env).snd = countAcq (move_motor env).snd ∧
      countAcq (move_motor env).snd ≤ 1) ∧
    (∀ env : PositionEnv,
      countRel (get_motor_position env).snd = countAcq (get_motor_position env).snd ∧
      countAcq (get_motor_position env).snd ≤ 1) ∧
    (∀ env : SpeedEnv,
      countRel (set_motor_speed env).snd = countAcq (set_motor_speed env).snd ∧
      countAcq (set_motor_speed env).snd ≤ 1) ∧
    (∀ (c : ConnectResult) (iters : List IterEnv),
      countRel (websocket_camera_stream c iters).trace =
        countAcq (websocket_camera_stream c iters).trace ∧
      countAcq (websocket_camera_stream c iters).trace ≤ 1) ∧
    (∀ (env : ExposureEnv) (h : Handle),
      h ∈ handlesOf (set_exposure env).snd → env.connect = ConnectResult.ok h) ∧
    (∀ (env : MoveEnv) (h : Handle),
      h ∈ handlesOf (move_motor env).snd → env.connect.result = ConnectResult.ok h) ∧
    (∀ (env1 env2 : ExposureEnv) (h1 h2 : Handle),
      h1 ∈ handlesOf (set_exposure env1).snd → h2 ∈ handlesOf (set_exposure env2).snd →
      env1.connect ≠ env2.connect → h1 ≠ h2) := by
  have hexp : ∀ env : ExposureEnv,
      countRel (set_exposure env).snd = countAcq (set_exposure env).snd ∧
      countAcq (set_exposure env).snd ≤ 1 := fun env =>
    runWithCameraDep_balanced env.connect (ExposureSettings env.body) _
      (fun cam v => set_exposure_handler_all_instr cam v env.setExposureTime)
  have hfresh : ∀ (env : ExposureEnv) (h : Handle),
      h ∈ handlesOf (set_exposure env).snd → env.connect = ConnectResult.ok h :=
    fun env h hm =>
      runWithCameraDep_handles env.connect (ExposureSettings env.body) _
        (fun cam v => set_exposure_handler_all_instr cam v env.setExposureTime) h hm
  refine ⟨hexp, ?_, ?_, ?_, ?_, ?_, ?_, hfresh, ?_, ?_⟩
  · intro env
    exact runWithCameraDep_balanced env.connect (GainSettings env.body) _
      (fun cam v => set_gain_handler_all_instr cam v env.set_gain)
  · intro env
    exact runWithCameraDep_balanced env.connect (Except.ok PUnit.unit) _
      (fun cam _ => get_single_frame_handler_all_instr cam env.getFrameForDisplay
        env.toNumpyArray env.imencode)
  · intro env
    exact runWithMotorDep_balanced env.connect (MotorMoveRequest env.body) _
      (fun h pos => move_motor_handler_all_instr h pos env.move)
  · intro env
    exact runWithMotorDep_balanced env.connect (Except.ok PUnit.unit) _
      (fun h _ => get_motor_position_handler_all_instr h env.get_position)
  · intro env
    exact runWithMotorDep_balanced env.connect (MotorSpeedRequest env.body) _
      (fun h v => set_motor_speed_handler_all_instr h v env.set_speed)
  · intro c iters
    cases c with
    | raises e =>
        simp [websocket_camera_stream, get_pysilico_camera, countAcq, countRel,
          isRealAcquire, isRealRelease]
    | null =>
        simp [websocket_camera_stream, get_pysilico_camera, countAcq, countRel,
          isRealAcquire, isRealRelease]
    | ok h =>
        simp [websocket_camera_stream, get_pysilico_camera, countAcq, countRel,
          isRealAcquire, isRealRelease]
  · intro env h hm
    exact runWithMotorDep_handles env.connect (MotorMoveRequest env.body) _
      (fun h2 pos => move_motor_handler_all_instr h2 pos env.move) h hm
  · intro env1 env2 h1 h2 hm1 hm2 hne heq
    apply hne
    rw [hfresh env1 h1 hm1, hfresh env2 h2 hm2, heq]

/-- Witness for C4 at concrete requests: a successful exposure request
acquires and releases exactly once, its handle is the session its own
connection returned, and two requests whose connection calls returned
distinct sessions hold distinct handles. -/
theorem instrument_handle_lifecycle_witness :
    countRel (set_exposure envExposureOk).snd = countAcq (set_exposure envExposureOk).snd ∧
    envExposureOk.connect = ConnectResult.ok 3 ∧
    (3 : Handle) ≠ 4 := by
  have h := instrument_handle_lifecycle
  refine ⟨(h.1 envExposureOk).1, ?_, ?_⟩
  · exact h.2.2.2.2.2.2.2.1 envExposureOk 3 (by decide)
  · exact h.2.2.2.2.2.2.2.2.2 envExposureOk envExposureOk2 3 4
      (by decide) (by decide) (by decide)

/-- C5 counterexample: the camera provider does not abort on a null handle.
When pysilico.camera returns None, get_pysilico_camera yields None to the
endpoint (there is no null check in camera.py, unlike motor.py), so the
handler runs with the null handle and fails only later, inside its own
instrument call: the AttributeError is wrapped by the handler's except
clause, and that HTTPException is thrown back into the dependency at its
yield and rewrapped once more before reaching the client. -/
theorem camera_null_handle_reaches_handler :
    get_pysilico_camera ConnectResult.null = Except.ok none ∧
    (set_exposure envExposureNull).snd =
      [Event.connectCamera, Event.acquired none, Event.released none] ∧
    (set_exposure envExposureNull).fst =
      jsonError 500 ("Could not connect to camera: " ++ strExc (Exc.httpExc 500
        ("Could not set exposure time: " ++ noneAttrMsg "setExposureTime"))) := by
  refine ⟨rfl, by decide, by decide⟩

/-- C5 amended: any exception during the connection attempt makes both
providers abort the request with a 500 error carrying the underlying cause,
and no handle reaches a Command Handler in that case; a null handle makes
only the motor provider abort - the camera provider yields the null handle
to the Command Handler. -/
theorem providers_connection_failure_policy :
    (∀ e : Exc, get_pysilico_camera (ConnectResult.raises e) =
      Except.error (Exc.httpExc 500 ("Could not connect to camera: " ++ strExc e))) ∧
    (∀ (a : MotorConnectAttempt) (e : Exc), ¬ timeout_seconds < a.duration →
      a.result = ConnectResult.raises e →
      get_plico_motor a =
        Except.error (Exc.httpExc 500 ("Could not connect to motor: " ++ strExc e))) ∧
    (∀ a : MotorConnectAttempt, ¬ timeout_seconds < a.duration →
      a.result = ConnectResult.null →
      get_plico_motor a = Except.error (Exc.httpExc 500
        ("Could not connect to motor: " ++ strExc (Exc.httpExc 500 motorNullDetail)))) ∧
    (∀ (env : ExposureEnv) (e : Exc), env.connect = ConnectResult.raises e →
      (set_exposure env).fst.statusCode = 500 ∧
      hasInstrCall (set_exposure env).snd = false ∧
      countAcq (set_exposure env).snd = 0) ∧
    (∀ (env : MoveEnv) (e : Exc), env.connect.result = ConnectResult.raises e →
      (move_motor env).fst.statusCode = 500 ∧
      hasInstrCall (move_motor env).snd = false ∧
      countAcq (move_motor env).snd = 0) ∧
    get_pysilico_camera ConnectResult.null = Except.ok none := by
  refine ⟨fun e => rfl, ?_, ?_, ?_, ?_, rfl⟩
  · intro a e hno hres
    simp [get_plico_motor, if_neg hno, hres]
  · intro a hno hres
    simp [get_plico_motor, if_neg hno, hres]
  · intro env e hc
    refine ⟨?_, ?_, ?_⟩ <;>
      simp [set_exposure, runWithCameraDep, get_pysilico_camera, hc, httpErrorResponse,
        jsonError, hasInstrCall, countAcq, isRealAcquire, isInstrCallEvent]
  · intro env e hc
    by_cases ht : timeout_seconds < env.connect.duration
    · have hp2 : get_plico_motor env.connect = Except.error (Exc.httpExc 500
          ("Could not connect to motor: " ++ strExc (Exc.httpExc 500 motorTimeoutDetail))) := by
        simp [get_plico_motor, if_pos ht]
      refine ⟨?_, ?_, ?_⟩ <;>
        simp [move_motor, runWithMotorDep, hp2, httpErrorResponse, jsonError,
          hasInstrCall, countAcq, isRealAcquire, isInstrCallEvent]
    · have hp2 : get_plico_motor env.connect =
          Except.error (Exc.httpExc 500 ("Could not connect to motor: " ++ strExc e)) := by
        simp [get_plico_motor, if_neg ht, hc]
      refine ⟨?_, ?_, ?_⟩ <;>
        simp [move_motor, runWithMotorDep, hp2, httpErrorResponse, jsonError,
          hasInstrCall, countAcq, isRealAcquire, isInstrCallEvent]

/-- Witness for the amended C5 at concrete attempts: a refused camera
connection, a refused motor connection and a null motor handle all abort
with the wrapped cause. -/
theorem providers_connection_failure_policy_witness :
    get_pysilico_camera (ConnectResult.raises (Exc.other "refused")) =
      Except.error (Exc.httpExc 500 ("Could not connect to camera: " ++
        strExc (Exc.other "refused"))) ∧
    get_plico_motor attemptMotorFail = Except.error (Exc.httpExc 500
      ("Could not connect to motor: " ++ strExc (Exc.other "refused"))) ∧
    get_plico_motor attemptMotorNull = Except.error (Exc.httpExc 500
      ("Could not connect to motor: " ++ strExc (Exc.httpExc 500 motorNullDetail))) ∧
    (set_exposure envExposureConnFail).fst.statusCode = 500 ∧
    hasInstrCall (set_exposure envExposureConnFail).snd = false := by
  have h := providers_connection_failure_policy
  refine ⟨h.1 (Exc.other "refused"), ?_, ?_, ?_, ?_⟩
  · exact h.2.1 attemptMotorFail (Exc.other "refused") (by decide) rfl
  · exact h.2.2.1 attemptMotorNull (by decide) rfl
  · exact (h.2.2.2.1 envExposureConnFail (Exc.other "refused") rfl).1
  · exact (h.2.2.2.1 envExposureConnFail (Exc.other "refused") rfl).2.1

/-- C6: the motor connection attempt is bounded by the fixed 10-second
timeout; an attempt exceeding it yields the timeout error - whose detail
differs from the one any other connection exception produces - instead of
hanging the request. -/
theorem motor_connect_timeout_bounded (a : MotorConnectAttempt)
    (hlong : timeout_seconds < a.duration) :
    get_plico_motor a = Except.error (Exc.httpExc 500
      ("Could not connect to motor: " ++ strExc (Exc.httpExc 500 motorTimeoutDetail))) ∧
    timeout_seconds = 10 ∧
    strContains ("Could not connect to motor: " ++
      strExc (Exc.httpExc 500 motorTimeoutDetail)) "Timeout" ∧
    (∀ e : Exc, strExc e ≠ strExc (Exc.httpExc 500 motorTimeoutDetail) →
      ("Could not connect to motor: " ++ strExc (Exc.httpExc 500 motorTimeoutDetail)) ≠
        ("Could not connect to motor: " ++ strExc e)) := by
  refine ⟨by simp [get_plico_motor, if_pos hlong], rfl, ?_, ?_⟩
  · exact ⟨"Could not connect to motor: 500: ",
      " connecting to motor server on localhost:7200. Server might be unresponsive.",
      by decide⟩
  · intro e hne heq
    exact hne (string_append_left_cancel "Could not connect to motor: " _ _ heq.symm)

/-- Witness for C6 at a concrete 11-second attempt. -/
theorem motor_connect_timeout_bounded_witness :
    get_plico_motor attemptMotorSlow = Except.error (Exc.httpExc 500
      ("Could not connect to motor: " ++ strExc (Exc.httpExc 500 motorTimeoutDetail))) ∧
    ("Could not connect to motor: " ++ strExc (Exc.httpExc 500 motorTimeoutDetail)) ≠
      ("Could not connect to motor: " ++ strExc (Exc.other "refused")) := by
  have h := motor_connect_timeout_bounded attemptMotorSlow (by decide)
  exact ⟨h.1, h.2.2.2 (Exc.other "refused") (by decide)⟩

/-- C7 counterexample: a request with an invalid body is rejected with 422,
but the instrument connection has already happened by then.  FastAPI solves
the camera dependency (entering get_pysilico_camera, which calls
pysilico.camera) before validating the request body, so for PUT /exposure
with exposure_time_us = -1 against a live camera the trace contains the
connection and acquisition before the 422 - refuting the claim that no
connection happens before rejection. -/
theorem validation_failure_after_connection :
    (set_exposure envExposureNeg).fst.statusCode = 422 ∧
    (set_exposure envExposureNeg).snd =
      [Event.connectCamera, Event.acquired (some 7), Event.released (some 7)] := by
  exact ⟨by decide, by decide⟩

/-- C7 amended: for every request whose input violates a declared constraint
(exposure_time_us ≤ 0, gain < 0, speed < 0, wrong type), provided that the
connection dependency itself did not fail, the endpoint returns a structured
422 validation error, never a server error, and no instrument method is
invoked - although the Connection Provider has already attempted the
instrument connection before the body is validated, and any handle it
acquired is released. -/
theorem validation_rejects_before_instrument_call :
    (∀ (env : ExposureEnv) (cam : Option Handle) (n : PyNum),
      get_pysilico_camera env.connect = Except.ok cam → env.body = JsonVal.num n →
      n.val ≤ 0 →
      isValidationResp (set_exposure env).fst = true ∧
      (set_exposure env).fst.statusCode = 422 ∧
      hasInstrCall (set_exposure env).snd = false) ∧
    (∀ (env : ExposureEnv) (cam : Option Handle) (s : String),
      get_pysilico_camera env.connect = Except.ok cam → env.body = JsonVal.str s →
      isValidationResp (set_exposure env).fst = true ∧
      (set_exposure env).fst.statusCode = 422 ∧
      hasInstrCall (set_exposure env).snd = false) ∧
    (∀ (env : GainEnv) (cam : Option Handle) (n : PyNum),
      get_pysilico_camera env.connect = Except.ok cam → env.body = JsonVal.num n →
      n.val < 0 →
      isValidationResp (set_gain env).fst = true ∧
      (set_gain env).fst.statusCode = 422 ∧
      hasInstrCall (set_gain env).snd = false) ∧
    (∀ (env : SpeedEnv) (h : Handle) (n : PyNum),
      get_plico_motor env.connect = Except.ok h → env.body = JsonVal.num n →
      n.val < 0 →
      isValidationResp (set_motor_speed env).fst = true ∧
      (set_motor_speed env).fst.statusCode = 422 ∧
      hasInstrCall (set_motor_speed env).snd = false) ∧
    (∀ (env : MoveEnv) (h : Handle) (s : String),
      get_plico_motor env.connect = Except.ok h → env.body = JsonVal.str s →
      isValidationResp (move_motor env).fst = true ∧
      (move_motor env).fst.statusCode = 422 ∧
      hasInstrCall (move_motor env).snd = false) := by
  refine ⟨?_, ?_, ?_, ?_, ?_⟩
  · intro env cam n hc hb hle
    have hv : ExposureSettings env.body = Except.error
        { loc := "exposure_time_us", msg := "Input should be greater than 0" } := by
      simp [ExposureSettings, hb, if_neg (not_lt.mpr hle)]
    refine ⟨?_, ?_, ?_⟩ <;>
      simp [set_exposure, runWithCameraDep, hc, hv, resp422, isValidationResp,
        hasInstrCall, isInstrCallEvent]
  · intro env cam s hc hb
    have hv : ExposureSettings env.body = Except.error
        { loc := "exposure_time_us", msg := "Input should be a valid number" } := by
      simp [ExposureSettings, hb]
    refine ⟨?_, ?_, ?_⟩ <;>
      simp [set_exposure, runWithCameraDep, hc, hv, resp422, isValidationResp,
        hasInstrCall, isInstrCallEvent]
  · intro env cam n hc hb hlt
    have hv : GainSettings env.body = Except.error
        { loc := "gain", msg := "Input should be greater than or equal to 0" } := by
      simp [GainSettings, hb, if_neg (not_le.mpr hlt)]
    refine ⟨?_, ?_, ?_⟩ <;>
      simp [set_gain, runWithCameraDep, hc, hv, resp422, isValidationResp,
        hasInstrCall, isInstrCallEvent]
  · intro env h n hc hb hlt
    have hv : MotorSpeedRequest env.body = Except.error
        { loc := "speed", msg := "Input should be greater than or equal to 0" } := by
      simp [MotorSpeedRequest, hb, if_neg (not_le.mpr hlt)]
    refine ⟨?_, ?_, ?_⟩ <;>
      simp [set_motor_speed, runWithMotorDep, hc, hv, resp422, isValidationResp,
        hasInstrCall, isInstrCallEvent]
  · intro env h s hc hb
    have hv : MotorMoveRequest env.body = Except.error
        { loc := "position", msg := "Input should be a valid number" } := by
      simp [MotorMoveRequest, hb]
    refine ⟨?_, ?_, ?_⟩ <;>
      simp [move_motor, runWithMotorDep, hc, hv, resp422, isValidationResp,
        hasInstrCall, isInstrCallEvent]

/-- Witness for the amended C7 at concrete invalid requests. -/
theorem validation_rejects_before_instrument_call_witness :
    ((set_exposure envExposureNeg).fst.statusCode = 422 ∧
      hasInstrCall (set_exposure envExposureNeg).snd = false) ∧
    ((set_motor_speed envSpeedNeg).fst.statusCode = 422 ∧
      hasInstrCall (set_motor_speed envSpeedNeg).snd = false) ∧
    ((set_gain envGainNeg).fst.statusCode = 422 ∧
      hasInstrCall (set_gain envGainNeg).snd = false) ∧
    ((move_motor envMoveBadType).fst.statusCode = 422 ∧
      hasInstrCall (move_motor envMoveBadType).snd = false) := by
  have h := validation_rejects_before_instrument_call
  have h1 := h.1 envExposureNeg (some 7) { val := -1, str := "-1.0" } rfl rfl (by norm_num)
  have h4 := h.2.2.2.1 envSpeedNeg 2 { val := -2, str := "-2.0" } rfl rfl (by norm_num)
  have h3 := h.2.2.1 envGainNeg (some 3) { val := -1, str := "-1.0" } rfl rfl (by norm_num)
  have h5 := h.2.2.2.2 envMoveBadType 2 "invalid_position" rfl rfl
  exact ⟨⟨h1.2.1, h1.2.2⟩, ⟨h4.2.1, h4.2.2⟩, ⟨h3.2.1, h3.2.2⟩, ⟨h5.2.1, h5.2.2⟩⟩

/-- C8: on GET /frame, if the instrument returns a frame and JPEG encoding
succeeds the response is 200 image/jpeg with body exactly the JPEG bytes
(non-empty whenever the encoder output is); if the instrument returns no
frame, or encoding fails, the response is a 500 whose detail includes the
cause, with an error body rather than a corrupt or empty byte body. -/
theorem get_single_frame_contract :
    (∀ (env : FrameEnv) (h : Handle) (f : Frame) (arr : NDArray) (b : Bytes),
      env.connect = ConnectResult.ok h →
      env.getFrameForDisplay = OpResult.ok (some f) →
      env.toNumpyArray = OpResult.ok arr →
      env.imencode = OpResult.ok (true, b) → b ≠ [] →
      (get_single_frame env).fst =
        { statusCode := 200, contentType := "image/jpeg", body := RespBody.jpegBytes b } ∧
      (∃ x xs, (get_single_frame env).fst.body = RespBody.jpegBytes (x :: xs))) ∧
    (∀ (env : FrameEnv) (h : Handle),
      env.connect = ConnectResult.ok h →
      env.getFrameForDisplay = OpResult.ok none →
      (get_single_frame env).fst = jsonError 500 ("Could not connect to camera: " ++
        strExc (Exc.httpExc 500 ("Error acquiring or encoding frame: " ++
          strExc (Exc.httpExc 500 "No frames received from camera")))) ∧
      strContains ("Could not connect to camera: " ++
        strExc (Exc.httpExc 500 ("Error acquiring or encoding frame: " ++
          strExc (Exc.httpExc 500 "No frames received from camera"))))
        "No frames received from camera" ∧
      isJpegBody (get_single_frame env).fst.body = false) ∧
    (∀ (env : FrameEnv) (h : Handle) (f : Frame) (arr : NDArray) (b : Bytes),
      env.connect = ConnectResult.ok h →
      env.getFrameForDisplay = OpResult.ok (some f) →
      env.toNumpyArray = OpResult.ok arr →
      env.imencode = OpResult.ok (false, b) →
      (get_single_frame env).fst = jsonError 500 ("Could not connect to camera: " ++
        strExc (Exc.httpExc 500 ("Error acquiring or encoding frame: " ++
          strExc (Exc.httpExc 500 "Could not encode frame to JPEG")))) ∧
      strContains ("Could not connect to camera: " ++
        strExc (Exc.httpExc 500 ("Error acquiring or encoding frame: " ++
          strExc (Exc.httpExc 500 "Could not encode frame to JPEG"))))
        "Could not encode frame to JPEG" ∧
      isJpegBody (get_single_frame env).fst.body = false) := by
  refine ⟨?_, ?_, ?_⟩
  · intro env h f arr b hc ha ht he hb
    have hr : (get_single_frame env).fst =
        { statusCode := 200, contentType := "image/jpeg", body := RespBody.jpegBytes b } := by
      simp [get_single_frame, runWithCameraDep, get_pysilico_camera, hc,
        get_single_frame_handler, ha, ht, he]
    refine ⟨hr, ?_⟩
    cases b with
    | nil => exact absurd rfl hb
    | cons x xs => exact ⟨x, xs, by simp [hr]⟩
  · intro env h hc ha
    have hr : (get_single_frame env).fst = jsonError 500
        ("Could not connect to camera: " ++
          strExc (Exc.httpExc 500 ("Error acquiring or encoding frame: " ++
            strExc (Exc.httpExc 500 "No frames received from camera")))) := by
      simp [get_single_frame, runWithCameraDep, get_pysilico_camera, hc,
        get_single_frame_handler, ha, httpErrorResponse]
    refine ⟨hr,
      ⟨"Could not connect to camera: 500: Error acquiring or encoding frame: 500: ", "",
        by decide⟩, ?_⟩
    simp [hr, jsonError, isJpegBody]
  · intro env h f arr b hc ha ht he
    have hr : (get_single_frame env).fst = jsonError 500
        ("Could not connect to camera: " ++
          strExc (Exc.httpExc 500 ("Error acquiring or encoding frame: " ++
            strExc (Exc.httpExc 500 "Could not encode frame to JPEG")))) := by
      simp [get_single_frame, runWithCameraDep, get_pysilico_camera, hc,
        get_single_frame_handler, ha, ht, he, httpErrorResponse]
    refine ⟨hr,
      ⟨"Could not connect to camera: 500: Error acquiring or encoding frame: 500: ", "",
        by decide⟩, ?_⟩
    simp [hr, jsonError, isJpegBody]

/-- Witness for C8 at concrete requests: a successful acquisition returns
the JPEG bytes with status 200, a frameless acquisition and a failed encode
return 500 details naming the cause (inside the dependency rewrap). -/
theorem get_single_frame_contract_witness :
    (get_single_frame envFrameOk).fst.statusCode = 200 ∧
    (get_single_frame envFrameOk).fst.body = RespBody.jpegBytes [255, 216] ∧
    (get_single_frame envFrameNone).fst = jsonError 500
      ("Could not connect to camera: " ++
        strExc (Exc.httpExc 500 ("Error acquiring or encoding frame: " ++
          strExc (Exc.httpExc 500 "No frames received from camera")))) ∧
    (get_single_frame envFrameEncodeFail).fst = jsonError 500
      ("Could not connect to camera: " ++
        strExc (Exc.httpExc 500 ("Error acquiring or encoding frame: " ++
          strExc (Exc.httpExc 500 "Could not encode frame to JPEG")))) := by
  have h1 := (get_single_frame_contract.1 envFrameOk 3 0 0 [255, 216]
    rfl rfl rfl rfl (by decide)).1
  have h2 := (get_single_frame_contract.2.1 envFrameNone 3 rfl rfl).1
  have h3 := (get_single_frame_contract.2.2 envFrameEncodeFail 3 0 0 [] rfl rfl rfl rfl).1
  exact ⟨by rw [h1], by rw [h1], h2, h3⟩

/-- C9: every successful command echoes its input exactly - PUT /move
returns the declared message with the request position and invokes move
exactly once with it, GET /position returns exactly the value the
instrument read, PUT /exposure and PUT /speed echo their values in the
declared messages. -/
theorem command_success_echoes_input :
    (∀ (env : MoveEnv) (h : Handle) (pos : PyNum),
      get_plico_motor env.connect = Except.ok h → env.body = JsonVal.num pos →
      env.move = OpResult.ok () →
      (move_motor env).fst = jsonMessage ("Motor moving to position: " ++ pos.str) ∧
      countCall (move_motor env).snd "move" (some pos) = 1) ∧
    (∀ (env : PositionEnv) (h : Handle) (p : PyNum),
      get_plico_motor env.connect = Except.ok h → env.get_position = OpResult.ok p →
      (get_motor_position env).fst =
        { statusCode := 200, contentType := "application/json"
        , body := RespBody.position p } ∧
      countCall (get_motor_position env).snd "get_position" none = 1) ∧
    (∀ (env : ExposureEnv) (h : Handle) (v : PyNum),
      env.connect = ConnectResult.ok h → env.body = JsonVal.num v → 0 < v.val →
      env.setExposureTime = OpResult.ok () →
      (set_exposure env).fst = jsonMessage ("Exposure time set to " ++ v.str ++ " us")) ∧
    (∀ (env : SpeedEnv) (h : Handle) (v : PyNum),
      get_plico_motor env.connect = Except.ok h → env.body = JsonVal.num v → 0 ≤ v.val →
      env.set_speed = OpResult.ok () →
      (set_motor_speed env).fst = jsonMessage ("Motor speed set to: " ++ v.str)) := by
  refine ⟨?_, ?_, ?_, ?_⟩
  · intro env h pos hc hb hm
    constructor
    · simp [move_motor, runWithMotorDep, hc, MotorMoveRequest, hb, move_motor_handler, hm]
    · simp [move_motor, runWithMotorDep, hc, MotorMoveRequest, hb, move_motor_handler, hm,
        countCall, List.filter_append, List.filter_cons]
  · intro env h p hc hp
    constructor
    · simp [get_motor_position, runWithMotorDep, hc, get_motor_position_handler, hp]
    · simp [get_motor_position, runWithMotorDep, hc, get_motor_position_handler, hp,
        countCall, List.filter_append, List.filter_cons]
  · intro env h v hc hb hpos hop
    have hv : ExposureSettings env.body = Except.ok v := by
      simp [ExposureSettings, hb, if_pos hpos]
    simp [set_exposure, runWithCameraDep, get_pysilico_camera, hc, hv,
      set_exposure_handler, hop]
  · intro env h v hc hb hnn hop
    have hv : MotorSpeedRequest env.body = Except.ok v := by
      simp [MotorSpeedRequest, hb, if_pos hnn]
    simp [set_motor_speed, runWithMotorDep, hc, hv, set_motor_speed_handler, hop]

/-- Witness for C9 at the concrete requests from the test suite: move to
50.0, read position 10.0, exposure 5.0, speed 100.0. -/
theorem command_success_echoes_input_witness :
    (move_motor envMoveOk).fst = jsonMessage "Motor moving to position: 50.0" ∧
    countCall (move_motor envMoveOk).snd "move" (some { val := 50, str := "50.0" }) = 1 ∧
    (get_motor_position envPositionOk).fst =
      { statusCode := 200, contentType := "application/json"
      , body := RespBody.position { val := 10, str := "10.0" } } ∧
    (set_exposure envExposureOk).fst = jsonMessage "Exposure time set to 5.0 us" ∧
    (set_motor_speed envSpeedOk).fst = jsonMessage "Motor speed set to: 100.0" := by
  have h1 := command_success_echoes_input.1 envMoveOk 2 { val := 50, str := "50.0" }
    rfl rfl rfl
  have h2 := command_success_echoes_input.2.1 envPositionOk 2 { val := 10, str := "10.0" }
    rfl rfl
  have h3 := command_success_echoes_input.2.2.1 envExposureOk 3 { val := 5, str := "5.0" }
    rfl rfl (by norm_num) rfl
  have h4 := command_success_echoes_input.2.2.2 envSpeedOk 2 { val := 100, str := "100.0" }
    rfl rfl (by norm_num) rfl
  exact ⟨h1.1, h1.2, h2.1, h3, h4⟩

/-- C10: error details produced inside a component are rewrapped by that
component's blanket except clause before reaching the client - the motor
timeout and null-handle HTTPExceptions (raised before the yield) surface as
"Could not connect to motor: 500: <specific detail>", and the GET /frame
no-frame and encode-failure HTTPExceptions reach the client nested inside
"Error acquiring or encoding frame: ..." (which the dependency, thrown the
exception at its yield, wraps once more into "Could not connect to
camera: 500: ..."). -/
theorem error_details_rewrapped :
    (∀ a : MotorConnectAttempt, timeout_seconds < a.duration →
      get_plico_motor a = Except.error (Exc.httpExc 500
        ("Could not connect to motor: " ++ strExc (Exc.httpExc 500 motorTimeoutDetail))) ∧
      strContains ("Could not connect to motor: " ++
        strExc (Exc.httpExc 500 motorTimeoutDetail)) motorTimeoutDetail) ∧
    (∀ a : MotorConnectAttempt, ¬ timeout_seconds < a.duration →
      a.result = ConnectResult.null →
      get_plico_motor a = Except.error (Exc.httpExc 500
        ("Could not connect to motor: " ++ strExc (Exc.httpExc 500 motorNullDetail))) ∧
      strContains ("Could not connect to motor: " ++
        strExc (Exc.httpExc 500 motorNullDetail)) motorNullDetail) ∧
    (∀ (env : FrameEnv) (h : Handle),
      env.connect = ConnectResult.ok h → env.getFrameForDisplay = OpResult.ok none →
      (get_single_frame env).fst.body = RespBody.errorDetail
        ("Could not connect to camera: " ++
          strExc (Exc.httpExc 500 ("Error acquiring or encoding frame: " ++
            strExc (Exc.httpExc 500 "No frames received from camera")))) ∧
      strContains ("Could not connect to camera: " ++
        strExc (Exc.httpExc 500 ("Error acquiring or encoding frame: " ++
          strExc (Exc.httpExc 500 "No frames received from camera"))))
        ("Error acquiring or encoding frame: " ++
          strExc (Exc.httpExc 500 "No frames received from camera")) ∧
      strContains ("Could not connect to camera: " ++
        strExc (Exc.httpExc 500 ("Error acquiring or encoding frame: " ++
          strExc (Exc.httpExc 500 "No frames received from camera"))))
        "No frames received from camera") ∧
    (∀ (env : FrameEnv) (h : Handle) (f : Frame) (arr : NDArray) (b : Bytes),
      env.connect = ConnectResult.ok h →
      env.getFrameForDisplay = OpResult.ok (some f) →
      env.toNumpyArray = OpResult.ok arr →
      env.imencode = OpResult.ok (false, b) →
      (get_single_frame env).fst.body = RespBody.errorDetail
        ("Could not connect to camera: " ++
          strExc (Exc.httpExc 500 ("Error acquiring or encoding frame: " ++
            strExc (Exc.httpExc 500 "Could not encode frame to JPEG")))) ∧
      strContains ("Could not connect to camera: " ++
        strExc (Exc.httpExc 500 ("Error acquiring or encoding frame: " ++
          strExc (Exc.httpExc 500 "Could not encode frame to JPEG"))))
        ("Error acquiring or encoding frame: " ++
          strExc (Exc.httpExc 500 "Could not encode frame to JPEG")) ∧
      strContains ("Could not connect to camera: " ++
        strExc (Exc.httpExc 500 ("Error acquiring or encoding frame: " ++
          strExc (Exc.httpExc 500 "Could not encode frame to JPEG"))))
        "Could not encode frame to JPEG") := by
  refine ⟨?_, ?_, ?_, ?_⟩
  · intro a hlong
    refine ⟨by simp [get_plico_motor, if_pos hlong], ?_⟩
    exact ⟨"Could not connect to motor: 500: ", "", by decide⟩
  · intro a hno hres
    refine ⟨by simp [get_plico_motor, if_neg hno, hres], ?_⟩
    exact ⟨"Could not connect to motor: 500: ", "", by decide⟩
  · intro env h hc ha
    refine ⟨?_, ⟨"Could not connect to camera: 500: ", "", by decide⟩,
      ⟨"Could not connect to camera: 500: Error acquiring or encoding frame: 500: ", "",
        by decide⟩⟩
    simp [get_single_frame, runWithCameraDep, get_pysilico_camera, hc,
      get_single_frame_handler, ha, httpErrorResponse, jsonError]
  · intro env h f arr b hc ha ht he
    refine ⟨?_, ⟨"Could not connect to camera: 500: ", "", by decide⟩,
      ⟨"Could not connect to camera: 500: Error acquiring or encoding frame: 500: ", "",
        by decide⟩⟩
    simp [get_single_frame, runWithCameraDep, get_pysilico_camera, hc,
      get_single_frame_handler, ha, ht, he, httpErrorResponse, jsonError]

/-- Witness for C10 at concrete inputs: the slow and the null motor
connection attempts, and the frameless GET /frame request. -/
theorem error_details_rewrapped_witness :
    get_plico_motor attemptMotorSlow = Except.error (Exc.httpExc 500
      ("Could not connect to motor: " ++ strExc (Exc.httpExc 500 motorTimeoutDetail))) ∧
    get_plico_motor attemptMotorNull = Except.error (Exc.httpExc 500
      ("Could not connect to motor: " ++ strExc (Exc.httpExc 500 motorNullDetail))) ∧
    (get_single_frame envFrameNone).fst.body = RespBody.errorDetail
      ("Could not connect to camera: " ++
        strExc (Exc.httpExc 500 ("Error acquiring or encoding frame: " ++
          strExc (Exc.httpExc 500 "No frames received from camera")))) := by
  have h1 := error_details_rewrapped.1 attemptMotorSlow (by decide)
  have h2 := error_details_rewrapped.2.1 attemptMotorNull (by decide) rfl
  have h3 := error_details_rewrapped.2.2.1 envFrameNone 3 rfl rfl
  exact ⟨h1.1, h2.1, h3.1⟩

end Fastlabio
